import Mathlib

/-!
Verification of the `iced_rust_study` application (`src/main.rs`), a small
iced GUI program: an application state (theme, page, login fields), a
transition function `update` over four message kinds, a render function
`view` producing a widget tree, and two style-sheet implementations.

The shallow embedding below translates the Rust source directly:

* `Iced.Theme` models `iced::theme::Theme`.  In iced 0.12 this enum has the
  variants `Light`, `Dark`, and many further built-in palettes plus
  `Custom(..)`; all variants other than `Light` and `Dark` are collapsed
  into the constructor `custom` (indexed by a `Nat` so that distinct such
  values exist), since the program only ever distinguishes `Light`, `Dark`
  and "everything else" (via derived `PartialEq`).
* Rust `String` becomes Lean `String`; `f32` style literals become exact
  rationals (`ℚ`) carrying the literal written in the source.
* The stateful `fn update(&mut self, message: Message)` becomes the pure
  state-passing function `RustUI.update : RustUI → Message → RustUI`.
* The widget tree produced by `fn view` is embedded as an inductive
  `Widget`; layout-only attributes (spacing, padding, alignment, sizes)
  are omitted, while labels, bound values, `on_input` handlers, `on_press`
  messages and custom styles are kept.
-/

namespace Iced

/-- Model of `iced::theme::Theme` (iced 0.12): `Light`, `Dark`, and all
remaining variants (`Dracula`, `Nord`, …, `Custom(..)`) collapsed into
`custom n`.  Derived equality mirrors the derived `PartialEq`. -/
inductive Theme where
  | light
  | dark
  | custom (n : Nat)
deriving DecidableEq, Repr

/-- Model of `iced::Color` `{ r, g, b, a : f32 }`; components are the exact
rationals written in the source literals. -/
structure Color where
  r : ℚ
  g : ℚ
  b : ℚ
  a : ℚ
deriving DecidableEq, Repr

/-- `iced::Color::default()` (derived `Default`): fully transparent. -/
def Color.default : Color := ⟨0, 0, 0, 0⟩

/-- `iced::Color::BLACK`. -/
def Color.black : Color := ⟨0, 0, 0, 1⟩

/-- `iced::Color::WHITE`. -/
def Color.white : Color := ⟨1, 1, 1, 1⟩

/-- `iced::Color::from_rgb(r, g, b)`: opaque color with alpha 1. -/
def Color.from_rgb (r g b : ℚ) : Color := ⟨r, g, b, 1⟩

/-- Model of `iced::Vector` (2-dimensional, `f32` components). -/
structure Vector where
  x : ℚ
  y : ℚ
deriving DecidableEq, Repr

/-- `iced::Vector::new`. -/
def Vector.new (x y : ℚ) : Vector := ⟨x, y⟩

/-- `iced::Vector::default()`: the zero vector. -/
def Vector.default : Vector := ⟨0, 0⟩

/-- Model of `iced::border::Radius`: one radius per corner. -/
structure Radius where
  top_left : ℚ
  top_right : ℚ
  bottom_right : ℚ
  bottom_left : ℚ
deriving DecidableEq, Repr

/-- Model of `iced::Border` `{ color, width, radius }`. -/
structure Border where
  color : Color
  width : ℚ
  radius : Radius
deriving DecidableEq, Repr

/-- `iced::Border::default()`: transparent color, zero width, zero radius. -/
def Border.default : Border := ⟨Color.default, 0, ⟨0, 0, 0, 0⟩⟩

/-- `iced::Border::with_radius(r)`: default border with all four corner
radii set to `r`. -/
def Border.with_radius (r : ℚ) : Border := ⟨Color.default, 0, ⟨r, r, r, r⟩⟩

/-- Model of `iced::Shadow` `{ color, offset, blur_radius }`. -/
structure Shadow where
  color : Color
  offset : Vector
  blur_radius : ℚ
deriving DecidableEq, Repr

/-- `iced::Shadow::default()`: transparent, zero offset, zero blur. -/
def Shadow.default : Shadow := ⟨Color.default, Vector.default, 0⟩

/-- Model of `iced::Background`; the program only uses the `Color` case
(the Rust enum also has a `Gradient` case, never constructed here). -/
inductive Background where
  | color (c : Color)
deriving DecidableEq, Repr

/-- Model of `iced::widget::button::Appearance` (iced 0.12). -/
structure ButtonAppearance where
  shadow_offset : Vector
  background : Option Background
  text_color : Color
  border : Border
  shadow : Shadow
deriving DecidableEq, Repr

/-- Model of `iced::widget::container::Appearance` (iced 0.12). -/
structure ContainerAppearance where
  text_color : Option Color
  background : Option Background
  border : Border
  shadow : Shadow
deriving DecidableEq, Repr

end Iced

open Iced

/-- `enum Page { Login, Register }` from `src/main.rs`. -/
inductive Page where
  | login
  | register
deriving DecidableEq, Repr

/-- `struct LoginField { email: String, password: String }`. -/
structure LoginField where
  email : String
  password : String
deriving DecidableEq, Repr

/-- `enum Message` from `src/main.rs`: `ToggleTheme`, `LoginSubmit`,
`Router(String)`, `LoginFieldChanged(String, String)`. -/
inductive Message where
  | toggleTheme
  | loginSubmit
  | router (route : String)
  | loginFieldChanged (email password : String)
deriving DecidableEq, Repr

/-- `struct RustUI { theme: Theme, page: Page, login_field: LoginField }`. -/
structure RustUI where
  theme : Iced.Theme
  page : Page
  login_field : LoginField
deriving DecidableEq, Repr

/-- `fn new() -> Self` of `impl Sandbox for RustUI`: dark theme, login
page, empty email and password. -/
def RustUI.new : RustUI :=
  { theme := .dark
    page := .login
    login_field := { email := "", password := "" } }

/-- `fn title(&self) -> String` of `impl Sandbox for RustUI`. -/
def RustUI.title (_ : RustUI) : String := "Rust UI - Iced"

/-- `fn update(&mut self, message: Message)` of `impl Sandbox for RustUI`,
as a pure state-passing function.  Direct transcription of the `match`:

* `ToggleTheme`: `self.theme = if self.theme == Theme::Light { Dark } else { Light }`;
* `LoginFieldChanged(email, password)`: both fields overwritten;
* `LoginSubmit`: empty arm;
* `Router(route)`: `if route == "login"` set `Page::Login`,
  `else if route == "register"` set `Page::Register`, otherwise nothing. -/
def RustUI.update (s : RustUI) : Message → RustUI
  | .toggleTheme =>
      { s with theme := if s.theme = .light then .dark else .light }
  | .loginFieldChanged email password =>
      { s with login_field := { email := email, password := password } }
  | .loginSubmit => s
  | .router route =>
      if route = "login" then { s with page := .login }
      else if route = "register" then { s with page := .register }
      else s

/-- `enum ButtonStyle { Standard, ThemeButton }`. -/
inductive ButtonStyle where
  | standard
  | themeButton
deriving DecidableEq, Repr

/-- `fn active(&self, theme: &Theme) -> button::Appearance` of
`impl button::StyleSheet for ButtonStyle`.  Direct transcription:
background `Some(Color(...))` with `from_rgb(0.059, 0.463, 0.702)` for
`Standard` and `Color::default()` for `ThemeButton`; border
`with_radius(5)` vs `default()`; shadow black `(0, 4)` blur `20` vs
`default()`; text color white for `Standard` under every theme, and for
`ThemeButton` black when `theme == Theme::Light` else white.  The
remaining field comes from `..Default::default()`. -/
def ButtonStyle.active (self : ButtonStyle) (theme : Iced.Theme) :
    ButtonAppearance :=
  { shadow_offset := Vector.default
    background := some (Background.color (match self with
      | .standard => Color.from_rgb 0.059 0.463 0.702
      | .themeButton => Color.default))
    border := match self with
      | .standard => Border.with_radius 5
      | .themeButton => Border.default
    shadow := match self with
      | .standard =>
          { color := Color.black
            offset := Vector.new 0 4
            blur_radius := 20 }
      | .themeButton => Shadow.default
    text_color :=
      if theme = .light then
        match self with
        | .standard => Color.white
        | .themeButton => Color.black
      else
        match self with
        | .standard => Color.white
        | .themeButton => Color.white }

/-- `struct ContainerStyle;` with
`fn appearance(&self, _theme: &Theme) -> container::Appearance` of
`impl container::StyleSheet for ContainerStyle`: default (`None`) text
color, border `with_radius(5)`, no background, black shadow with offset
`(0, 2)` and blur `40`.  The `_theme` parameter is unused in the source. -/
def ContainerStyle.appearance (_theme : Iced.Theme) : ContainerAppearance :=
  { text_color := none
    border := Border.with_radius 5
    background := none
    shadow :=
      { color := Color.black
        offset := Vector.new 0 2
        blur_radius := 40 } }

/-- Widget tree produced by the render code.  Layout-only attributes
(spacing, padding, widths, alignment, text sizes) are omitted; labels,
input bindings, `on_input` handlers, `on_press` messages and the custom
styles are kept.  `cont`'s flag records whether the container carries the
custom `ContainerStyle`. -/
inductive Widget where
  | textLabel (s : String)
  | textInput (placeholder value : String) (on_input : String → Message)
  | btn (label : String) (on_press : Option Message)
      (style : Option ButtonStyle)
  | row (children : List Widget)
  | column (children : List Widget)
  | cont (child : Widget) (styled : Bool)

/-- `fn page_footer(btn: Button<Message>) -> Container<Message>`: a row of
the "Toggle Theme" button (dispatching `ToggleTheme`, `ThemeButton` style)
followed by the given button, inside an unstyled container. -/
def page_footer (b : Widget) : Widget :=
  Widget.cont
    (Widget.row
      [Widget.btn "Toggle Theme" (some .toggleTheme) (some .themeButton), b])
    false

/-- `fn input_field(placeholder, value) -> TextInput<Message>`: a text
input with the given placeholder and bound value (no handler yet;
`on_input` is attached by the caller). -/
def input_field (placeholder value : String)
    (on_input : String → Message) : Widget :=
  Widget.textInput placeholder value on_input

/-- `fn submit_btn(name, event) -> Button<Message>`: a button labelled
`name`, dispatching `event`, with the `Standard` custom style. -/
def submit_btn (name : String) (event : Message) : Widget :=
  Widget.btn name (some event) (some .standard)

/-- `fn log_in_page(login_field: &LoginField) -> Container<Message>`: a
column of the title text, the email input (whose `on_input` closure pairs
the new email with the current password), the password input (pairing the
current email with the new password), and the `Login` submit button; all
inside a container with the custom `ContainerStyle`. -/
def log_in_page (lf : LoginField) : Widget :=
  Widget.cont
    (Widget.column
      [Widget.textLabel "Graphical User Interface - Iced",
       input_field "Email Address ..." lf.email
         (fun email => Message.loginFieldChanged email lf.password),
       input_field "Password ..." lf.password
         (fun password => Message.loginFieldChanged lf.email password),
       submit_btn "Login" Message.loginSubmit])
    true

/-- `fn register_page() -> Container<Message>`: a column holding only the
"Page two" title, in an unstyled container. -/
def register_page : Widget :=
  Widget.cont (Widget.column [Widget.textLabel "Page two"]) false

/-- `fn view(&self) -> Element<Message>` of `impl Sandbox for RustUI`: the
page content (login page or register page by `self.page`), then the footer
with the page-dependent navigation button ("Page Two" dispatching
`Router("register")` on the login page, "Main Page - Login" dispatching
`Router("login")` on the register page), wrapped in a column inside the
styled outer container. -/
def RustUI.view (s : RustUI) : Widget :=
  Widget.cont
    (Widget.column
      [match s.page with
       | .login => log_in_page s.login_field
       | .register => register_page,
       match s.page with
       | .login =>
           page_footer
             (Widget.btn "Page Two" (some (.router "register"))
               (some .themeButton))
       | .register =>
           page_footer
             (Widget.btn "Main Page - Login" (some (.router "login"))
               (some .themeButton))])
    true

mutual

/-- All text inputs of a widget tree, in tree order, as
(placeholder, bound value, `on_input` handler) triples. -/
def Widget.inputsList : Widget → List (String × String × (String → Message))
  | .textLabel _ => []
  | .textInput p v f => [(p, v, f)]
  | .btn _ _ _ => []
  | .row cs => inputsListAux cs
  | .column cs => inputsListAux cs
  | .cont c _ => Widget.inputsList c

/-- `Widget.inputsList` over a list of children. -/
def inputsListAux : List Widget → List (String × String × (String → Message))
  | [] => []
  | w :: ws => Widget.inputsList w ++ inputsListAux ws

end

mutual

/-- The `on_press` messages of all buttons of a widget tree, in tree
order. -/
def Widget.pressList : Widget → List Message
  | .textLabel _ => []
  | .textInput _ _ _ => []
  | .btn _ op _ => op.toList
  | .row cs => pressListAux cs
  | .column cs => pressListAux cs
  | .cont c _ => Widget.pressList c

/-- `Widget.pressList` over a list of children. -/
def pressListAux : List Widget → List Message
  | [] => []
  | w :: ws => Widget.pressList w ++ pressListAux ws

end

/-- Spec-side reading of "filled blue": an opaque color whose blue
component exceeds both the red and the green component. -/
def Iced.Color.isFilledBlue (c : Color) : Prop :=
  c.a = 1 ∧ c.r < c.b ∧ c.g < c.b

/-- Spec-side reading of "transparent": zero alpha. -/
def Iced.Color.isTransparent (c : Color) : Prop := c.a = 0

/-- Spec-side reading of "rounded corners / rounded border": every corner
radius is positive. -/
def Iced.Border.isRounded (b : Border) : Prop :=
  0 < b.radius.top_left ∧ 0 < b.radius.top_right ∧
  0 < b.radius.bottom_right ∧ 0 < b.radius.bottom_left

/-- Spec-side reading of "drop shadow": positive blur radius and a
non-transparent shadow color. -/
def Iced.Shadow.isDropShadow (sh : Shadow) : Prop :=
  0 < sh.blur_radius ∧ 0 < sh.color.a

/-- C1: for every state, `Router("login")` yields `Page = Login`,
`Router("register")` yields `Page = Register`, and `Router(t)` for any
other target `t` leaves the whole state unchanged (a silent no-op). -/
theorem router_navigation (s : RustUI) :
    (s.update (.router "login")).page = .login ∧
    (s.update (.router "register")).page = .register ∧
    ∀ t : String, t ≠ "login" → t ≠ "register" → s.update (.router t) = s := by
  refine ⟨rfl, ?_, ?_⟩
  · simp [RustUI.update]
  · intro t h1 h2
    simp [RustUI.update, h1, h2]

/-- Witness for C1 at the initial state and the unrecognized target
`"home"`. -/
theorem router_navigation_witness :
    RustUI.new.update (.router "home") = RustUI.new :=
  (router_navigation RustUI.new).2.2 "home" (by decide) (by decide)

/-- C2: `LoginFieldChanged(e, p)` replaces both login fields wholesale
(and the full state is the prior state with only `login_field` replaced),
for every prior state. -/
theorem fields_changed_replaces (s : RustUI) (e p : String) :
    (s.update (.loginFieldChanged e p)).login_field =
      { email := e, password := p } ∧
    s.update (.loginFieldChanged e p) =
      { s with login_field := { email := e, password := p } } :=
  ⟨rfl, rfl⟩

/-- C3: `ToggleTheme` maps a `Light` theme to `Dark` and a `Dark` theme
to `Light`. -/
theorem toggle_theme_flips (s : RustUI) :
    (s.theme = .light → (s.update .toggleTheme).theme = .dark) ∧
    (s.theme = .dark → (s.update .toggleTheme).theme = .light) := by
  constructor <;> intro h <;> simp [RustUI.update, h]

/-- Witness for C3 at the initial (dark-themed) state. -/
theorem toggle_theme_flips_witness :
    (RustUI.new.update .toggleTheme).theme = .light :=
  (toggle_theme_flips RustUI.new).2 rfl

/-- Counterexample to C4 as stated: from a state whose theme is neither
`Light` nor `Dark` (here one of the further `iced::Theme` variants),
applying `ToggleTheme` twice does not restore the original theme — it
lands on `Dark`. -/
theorem toggle_theme_roundtrip_cex :
    ¬ ((((⟨.custom 0, .login, ⟨"", ""⟩⟩ : RustUI).update
          .toggleTheme).update .toggleTheme).theme =
        (⟨.custom 0, .login, ⟨"", ""⟩⟩ : RustUI).theme) := by
  decide

/-- C4 (amended): for every state whose theme is `Light` or `Dark` — in
particular every state reachable from the initial state — applying
`ToggleTheme` twice restores the original theme. -/
theorem toggle_theme_roundtrip (s : RustUI)
    (h : s.theme = .light ∨ s.theme = .dark) :
    ((s.update .toggleTheme).update .toggleTheme).theme = s.theme := by
  rcases h with h | h <;> simp [RustUI.update, h]

/-- Witness for C4 (amended) at the initial state. -/
theorem toggle_theme_roundtrip_witness :
    ((RustUI.new.update .toggleTheme).update .toggleTheme).theme =
      RustUI.new.theme :=
  toggle_theme_roundtrip RustUI.new (Or.inr rfl)

/-- C5: the initial state has theme `Dark`, page `Login`, and empty email
and password. -/
theorem initial_state_defaults :
    RustUI.new.theme = .dark ∧ RustUI.new.page = .login ∧
    RustUI.new.login_field.email = "" ∧
    RustUI.new.login_field.password = "" :=
  ⟨rfl, rfl, rfl, rfl⟩

/-- C6: frame conditions of every event: `ToggleTheme` leaves page and
login fields unchanged; `Router` leaves theme and login fields unchanged;
`LoginFieldChanged` leaves theme and page unchanged; `LoginSubmit`
changes nothing at all. -/
theorem frame_conditions (s : RustUI) (t e p : String) :
    ((s.update .toggleTheme).page = s.page ∧
     (s.update .toggleTheme).login_field = s.login_field) ∧
    ((s.update (.router t)).theme = s.theme ∧
     (s.update (.router t)).login_field = s.login_field) ∧
    ((s.update (.loginFieldChanged e p)).theme = s.theme ∧
     (s.update (.loginFieldChanged e p)).page = s.page) ∧
    s.update .loginSubmit = s := by
  refine ⟨⟨rfl, rfl⟩, ⟨?_, ?_⟩, ⟨rfl, rfl⟩, rfl⟩ <;>
    · simp only [RustUI.update]
      split_ifs <;> rfl

/-- C10: over the full theme type, `ToggleTheme` maps `Light` to `Dark`
and every non-`Light` theme (including the variants that are neither
`Light` nor `Dark`) to `Light`; hence two applications restore the theme
exactly when it is `Light` or `Dark`. -/
theorem toggle_theme_asymmetric (s : RustUI) :
    (s.theme = .light → (s.update .toggleTheme).theme = .dark) ∧
    (s.theme ≠ .light → (s.update .toggleTheme).theme = .light) ∧
    (((s.update .toggleTheme).update .toggleTheme).theme = s.theme ↔
      s.theme = .light ∨ s.theme = .dark) := by
  obtain ⟨th, pg, lf⟩ := s
  cases th <;> simp [RustUI.update]

/-- Witness for C10 at a state holding one of the further theme
variants. -/
theorem toggle_theme_asymmetric_witness :
    ((⟨.custom 7, .register, ⟨"a", "b"⟩⟩ : RustUI).update
        .toggleTheme).theme = .light :=
  (toggle_theme_asymmetric ⟨.custom 7, .register, ⟨"a", "b"⟩⟩).2.1
    (by decide)

/-- C7: under every theme, the `Standard` button style has a filled blue
background, rounded corners, a drop shadow and white text, while the
`ThemeButton` style has a transparent background, no border, no shadow,
and text that is black under the `Light` theme and white under the `Dark`
theme. -/
theorem button_styles (th : Iced.Theme) :
    ((ButtonStyle.standard.active th).background =
        some (Background.color (Color.from_rgb 0.059 0.463 0.702)) ∧
      Color.isFilledBlue (Color.from_rgb 0.059 0.463 0.702) ∧
      Border.isRounded (ButtonStyle.standard.active th).border ∧
      Shadow.isDropShadow (ButtonStyle.standard.active th).shadow ∧
      (ButtonStyle.standard.active th).text_color = Color.white) ∧
    ((ButtonStyle.themeButton.active th).background =
        some (Background.color Color.default) ∧
      Color.isTransparent Color.default ∧
      (ButtonStyle.themeButton.active th).border = Border.default ∧
      (ButtonStyle.themeButton.active th).shadow = Shadow.default ∧
      (th = .light →
        (ButtonStyle.themeButton.active th).text_color = Color.black) ∧
      (th = .dark →
        (ButtonStyle.themeButton.active th).text_color = Color.white)) := by
  cases th <;>
    simp [ButtonStyle.active, Color.isFilledBlue, Color.isTransparent,
      Border.isRounded, Shadow.isDropShadow, Color.from_rgb, Color.default,
      Color.black, Color.white, Border.with_radius, Border.default,
      Shadow.default, Vector.new, Vector.default] <;>
    norm_num

/-- Witness for C7: the theme-dependent text colors of `ThemeButton` at
the two named themes. -/
theorem button_styles_witness :
    (ButtonStyle.themeButton.active .light).text_color = Color.black ∧
    (ButtonStyle.themeButton.active .dark).text_color = Color.white :=
  ⟨(button_styles .light).2.2.2.2.2.1 rfl,
   (button_styles .dark).2.2.2.2.2.2 rfl⟩

/-- C8: the container style ignores its theme argument — every theme
yields the same appearance — and that appearance has no background fill,
a rounded border, a drop shadow and the default (`None`) text color. -/
theorem container_theme_invariant (th₁ th₂ : Iced.Theme) :
    ContainerStyle.appearance th₁ = ContainerStyle.appearance th₂ ∧
    (ContainerStyle.appearance th₁).background = none ∧
    Border.isRounded (ContainerStyle.appearance th₁).border ∧
    Shadow.isDropShadow (ContainerStyle.appearance th₁).shadow ∧
    (ContainerStyle.appearance th₁).text_color = none := by
  refine ⟨rfl, rfl, ?_, ?_, rfl⟩ <;>
    simp [ContainerStyle.appearance, Border.isRounded, Shadow.isDropShadow,
      Border.with_radius, Color.black, Vector.new]

/-- C9: on the login page the rendered tree holds exactly two text inputs
— the email input bound to the current email whose handler sends
`LoginFieldChanged(new_email, current_password)`, then the password input
bound to the current password whose handler sends
`LoginFieldChanged(current_email, new_password)` — and exactly three
buttons, dispatching `LoginSubmit`, `ToggleTheme` and
`Router("register")`; on the register page it holds no text inputs and
exactly two buttons, dispatching `ToggleTheme` and `Router("login")`. -/
theorem view_controls (s : RustUI) :
    (s.page = .login →
      (s.view.inputsList.map fun t => (t.1, t.2.1)) =
        [("Email Address ...", s.login_field.email),
         ("Password ...", s.login_field.password)] ∧
      (∀ x : String, s.view.inputsList.map (fun t => t.2.2 x) =
        [Message.loginFieldChanged x s.login_field.password,
         Message.loginFieldChanged s.login_field.email x]) ∧
      s.view.pressList =
        [.loginSubmit, .toggleTheme, .router "register"]) ∧
    (s.page = .register →
      s.view.inputsList = [] ∧
      s.view.pressList = [.toggleTheme, .router "login"]) := by
  obtain ⟨th, pg, lf⟩ := s
  cases pg <;>
    simp [RustUI.view, log_in_page, register_page, page_footer,
      input_field, submit_btn, Widget.inputsList, inputsListAux,
      Widget.pressList, pressListAux, Option.toList]

/-- Witness for C9: the buttons rendered at the initial state (login
page). -/
theorem view_controls_witness :
    RustUI.new.view.pressList =
      [Message.loginSubmit, .toggleTheme, .router "register"] :=
  ((view_controls RustUI.new).1 rfl).2.2
